import Mathlib

/-!
Shallow embedding of the retry/backoff callback layer and the identity-token
minting helpers of the LumosTrade agent repository
(`src/LumosAI/Agents/LumosAgents/...`), together with proofs of the spec's
claims about them.

Python values stored in `callback_context.state` are modelled by `PyVal`
(ints, floats-as-rationals, Python `None`, and opaque other values), the
state dict by a function `String → Option PyVal`, and exceptions by explicit
result types.  The float arithmetic performed by the retry coordinator
(multiplication by 2.0, `min` against 10.0, comparisons) is exact on the
values that occur, so rationals model it faithfully.
-/

/-- A Python value as far as the retry callbacks can observe one:
machine ints, floats (modelled as rationals — every operation the code
performs on them is exact), `None`, and opaque other objects. -/
inductive PyVal where
  | vint : Int → PyVal
  | vfloat : ℚ → PyVal
  | vnone : PyVal
  | vother : Nat → PyVal
deriving DecidableEq, Repr

/-- A Python exception, as far as the embedded code distinguishes them. -/
inductive PyErr where
  | keyError (k : String) : PyErr
  | typeError : PyErr
deriving DecidableEq, Repr

/-- Truthiness of a `PyVal`, mirroring Python's `bool(x)` for the values we model. -/
def pyTruthy : PyVal → Bool
  | .vint n => n ≠ 0
  | .vfloat q => q ≠ 0
  | .vnone => false
  | .vother _ => true

/-- Python's `a or b`: `a` if truthy, else `b`. -/
def pyOr (a b : PyVal) : PyVal := if pyTruthy a then a else b

/-- The numeric value of a `PyVal`, when it is numeric. -/
def pyNum : PyVal → Option ℚ
  | .vint n => some (n : ℚ)
  | .vfloat q => some q
  | .vnone => none
  | .vother _ => none

/-- Python `x >= (c : int)`: numeric comparison, `TypeError` on non-numbers. -/
def pyGeInt (v : PyVal) (c : Int) : Except PyErr Bool :=
  match pyNum v with
  | some q => .ok (decide ((c : ℚ) ≤ q))
  | none => .error .typeError

/-- Python `x + 1` for a state value: int stays int, float stays float,
`TypeError` otherwise. -/
def pyAdd1 : PyVal → Except PyErr PyVal
  | .vint n => .ok (.vint (n + 1))
  | .vfloat q => .ok (.vfloat (q + 1))
  | .vnone => .error .typeError
  | .vother _ => .error .typeError

/-- The mutable `callback_context.state` dict: a map from string keys to values. -/
def Dict : Type := String → Option PyVal

/-- `state[k]` read that may be absent. -/
def dictLookup (d : Dict) (k : String) : Option PyVal := d k

/-- Python `k in state`. -/
def dictContains (d : Dict) (k : String) : Bool := (d k).isSome

/-- Python `state[k] = v`. -/
def dictSet (d : Dict) (k : String) (v : PyVal) : Dict :=
  fun k' => if k' = k then some v else d k'

/-- Python `del state[k]` (the embedding only performs it on present keys). -/
def dictDel (d : Dict) (k : String) : Dict :=
  fun k' => if k' = k then none else d k'

/-- The empty state dict. -/
def emptyDict : Dict := fun _ => none

/-- What one invocation of `retry_on_error_callback` produced: the value it
returned (or the exception it raised), the state dict as it stands when the
call ends, and the durations passed to `time.sleep`, in order. -/
structure CallbackResult where
  result : Except PyErr PyVal
  state : Dict
  sleeps : List PyVal

namespace LumosChatAgent

/-- `RETRY_MAX_ATTEMPTS = 3` (LumosChatAgent/agent.py line 10). -/
def RETRY_MAX_ATTEMPTS : Int := 3

/-- `RETRY_INITIAL_DELAY = 0.1` (line 11). -/
def RETRY_INITIAL_DELAY : ℚ := 1 / 10

/-- `RETRY_MAX_DELAY = 10.0` (line 12). -/
def RETRY_MAX_DELAY : ℚ := 10

/-- `RETRY_MULTIPLIER = 2.0` (line 13). -/
def RETRY_MULTIPLIER : ℚ := 2

/-- The f-string key `f"retry_count_{request_id}"`. -/
def retryKey (request_id : Nat) : String := "retry_count_" ++ toString request_id

/-- The f-string key `f"retry_delay_{request_id}"`. -/
def delayKey (request_id : Nat) : String := "retry_delay_" ++ toString request_id

/-- `rate_limit_callback` (LumosChatAgent/agent.py lines 18-23): sleeps 0.1s,
returns `None`, touches no state. -/
def rate_limit_callback (state : Dict) : CallbackResult :=
  ⟨.ok .vnone, state, [.vfloat (1 / 10)]⟩

/-- `retry_on_error_callback` (LumosChatAgent/agent.py lines 25-63), embedded
statement by statement.  `request_id` stands for Python's `id(llm_request)`;
`error` and `exception` are the callback's keyword parameters (defaulting to
`None`).  Reads of absent keys raise `KeyError`; state mutations performed
before a raise are kept, as in Python. -/
def retry_on_error_callback (state0 : Dict) (request_id : Nat)
    (error : PyVal := .vnone) (exception : PyVal := .vnone) : CallbackResult :=
  let err := pyOr error exception
  let retry_key := retryKey request_id
  let delay_key := delayKey request_id
  let state1 :=
    if dictContains state0 retry_key then state0
    else dictSet (dictSet state0 retry_key (.vint 0)) delay_key (.vfloat RETRY_INITIAL_DELAY)
  match dictLookup state1 retry_key with
  | none => ⟨.error (.keyError retry_key), state1, []⟩
  | some retry_count =>
    match dictLookup state1 delay_key with
    | none => ⟨.error (.keyError delay_key), state1, []⟩
    | some current_delay =>
      match pyGeInt retry_count (RETRY_MAX_ATTEMPTS - 1) with
      | .error e => ⟨.error e, state1, []⟩
      | .ok exhausted =>
        if exhausted then
          ⟨.ok .vnone, dictDel (dictDel state1 retry_key) delay_key, []⟩
        else
          match pyAdd1 retry_count with
          | .error e => ⟨.error e, state1, []⟩
          | .ok bumped =>
            let state2 := dictSet state1 retry_key bumped
            match pyNum current_delay with
            | none => ⟨.error .typeError, state2, []⟩
            | some d =>
              let next_delay := min (d * RETRY_MULTIPLIER) RETRY_MAX_DELAY
              ⟨.ok .vnone, dictSet state2 delay_key (.vfloat next_delay), [current_delay]⟩

end LumosChatAgent

namespace GoogleTools

/-- `RETRY_MAX_ATTEMPTS = 3` (LumosChatAgent/GoogleTools.py line 10). -/
def RETRY_MAX_ATTEMPTS : Int := 3

/-- `RETRY_INITIAL_DELAY = 0.1` (GoogleTools.py line 11). -/
def RETRY_INITIAL_DELAY : ℚ := 1 / 10

/-- `RETRY_MAX_DELAY = 10.0` (GoogleTools.py line 12). -/
def RETRY_MAX_DELAY : ℚ := 10

/-- `RETRY_MULTIPLIER = 2.0` (GoogleTools.py line 13). -/
def RETRY_MULTIPLIER : ℚ := 2

/-- `rate_limit_callback` (GoogleTools.py lines 18-22). -/
def rate_limit_callback (state : Dict) : CallbackResult :=
  ⟨.ok .vnone, state, [.vfloat (1 / 10)]⟩

/-- `retry_on_error_callback` as defined in LumosChatAgent/GoogleTools.py
lines 24-62, embedded statement by statement from that file. -/
def retry_on_error_callback (state0 : Dict) (request_id : Nat)
    (error : PyVal := .vnone) (exception : PyVal := .vnone) : CallbackResult :=
  let err := pyOr error exception
  let retry_key := "retry_count_" ++ toString request_id
  let delay_key := "retry_delay_" ++ toString request_id
  let state1 :=
    if dictContains state0 retry_key then state0
    else dictSet (dictSet state0 retry_key (.vint 0)) delay_key (.vfloat RETRY_INITIAL_DELAY)
  match dictLookup state1 retry_key with
  | none => ⟨.error (.keyError retry_key), state1, []⟩
  | some retry_count =>
    match dictLookup state1 delay_key with
    | none => ⟨.error (.keyError delay_key), state1, []⟩
    | some current_delay =>
      match pyGeInt retry_count (RETRY_MAX_ATTEMPTS - 1) with
      | .error e => ⟨.error e, state1, []⟩
      | .ok exhausted =>
        if exhausted then
          ⟨.ok .vnone, dictDel (dictDel state1 retry_key) delay_key, []⟩
        else
          match pyAdd1 retry_count with
          | .error e => ⟨.error e, state1, []⟩
          | .ok bumped =>
            let state2 := dictSet state1 retry_key bumped
            match pyNum current_delay with
            | none => ⟨.error .typeError, state2, []⟩
            | some d =>
              let next_delay := min (d * RETRY_MULTIPLIER) RETRY_MAX_DELAY
              ⟨.ok .vnone, dictSet state2 delay_key (.vfloat next_delay), [current_delay]⟩

end GoogleTools

namespace LumosConjureAgent

/-- `RETRY_MAX_ATTEMPTS = 3` (LumosConjureAgent/agent.py line 9). -/
def RETRY_MAX_ATTEMPTS : Int := 3

/-- `RETRY_INITIAL_DELAY = 0.1` (LumosConjureAgent/agent.py line 10). -/
def RETRY_INITIAL_DELAY : ℚ := 1 / 10

/-- `RETRY_MAX_DELAY = 10.0` (LumosConjureAgent/agent.py line 11). -/
def RETRY_MAX_DELAY : ℚ := 10

/-- `RETRY_MULTIPLIER = 2.0` (LumosConjureAgent/agent.py line 12). -/
def RETRY_MULTIPLIER : ℚ := 2

/-- `rate_limit_callback` (LumosConjureAgent/agent.py lines 17-22). -/
def rate_limit_callback (state : Dict) : CallbackResult :=
  ⟨.ok .vnone, state, [.vfloat (1 / 10)]⟩

/-- `retry_on_error_callback` as defined in LumosConjureAgent/agent.py
lines 24-62, embedded statement by statement from that file. -/
def retry_on_error_callback (state0 : Dict) (request_id : Nat)
    (error : PyVal := .vnone) (exception : PyVal := .vnone) : CallbackResult :=
  let err := pyOr error exception
  let retry_key := "retry_count_" ++ toString request_id
  let delay_key := "retry_delay_" ++ toString request_id
  let state1 :=
    if dictContains state0 retry_key then state0
    else dictSet (dictSet state0 retry_key (.vint 0)) delay_key (.vfloat RETRY_INITIAL_DELAY)
  match dictLookup state1 retry_key with
  | none => ⟨.error (.keyError retry_key), state1, []⟩
  | some retry_count =>
    match dictLookup state1 delay_key with
    | none => ⟨.error (.keyError delay_key), state1, []⟩
    | some current_delay =>
      match pyGeInt retry_count (RETRY_MAX_ATTEMPTS - 1) with
      | .error e => ⟨.error e, state1, []⟩
      | .ok exhausted =>
        if exhausted then
          ⟨.ok .vnone, dictDel (dictDel state1 retry_key) delay_key, []⟩
        else
          match pyAdd1 retry_count with
          | .error e => ⟨.error e, state1, []⟩
          | .ok bumped =>
            let state2 := dictSet state1 retry_key bumped
            match pyNum current_delay with
            | none => ⟨.error .typeError, state2, []⟩
            | some d =>
              let next_delay := min (d * RETRY_MULTIPLIER) RETRY_MAX_DELAY
              ⟨.ok .vnone, dictSet state2 delay_key (.vfloat next_delay), [current_delay]⟩

end LumosConjureAgent

namespace AuthHelper

/-- A Python exception escaping one of the external calls that
`get_id_token_for_service` (LumosChatAgent/AuthHelper.py) makes, as far as
its `except` clauses distinguish them.  `otherError` covers every exception
class the handlers treat generically. -/
inductive PyExn where
  | defaultCredentialsError (msg : String) : PyExn
  | calledProcessError : PyExn
  | fileNotFoundError : PyExn
  | runtimeError (msg : String) : PyExn
  | otherError (tag : Nat) : PyExn
deriving DecidableEq, Repr

deriving instance DecidableEq for Except

/-- The environment `get_id_token_for_service` runs in: the
`AGENT_SERVICE_ACCOUNT` variable, and the outcome of each external call it
may make (`subprocess.run` of gcloud, `google.auth.default()`,
`credentials.refresh(...)`, `id_token.fetch_id_token(...)`).  A `.error`
outcome is the exception that call raises; `gcloudRun`'s `.ok` carries the
process's standard output. -/
structure AuthEnv where
  agent_service_account : Option String
  gcloudRun : Except PyExn String
  googleAuthDefault : Except PyExn Unit
  refreshCreds : Except PyExn Unit
  fetch_id_token : Except PyExn String
deriving DecidableEq, Repr

/-- The message of the `DefaultCredentialsError` re-raised by AuthHelper.py
lines 58-63, concatenated from its four adjacent string literals exactly as
in the source. -/
def adcRemediationMsg : String :=
  "No Application Default Credentials found. "
    ++ "If running locally, set GOOGLE_APPLICATION_CREDENTIALS to a service-account key or run "
    ++ "'gcloud auth application-default login'. If running in Cloud Run, ensure the service has "
    ++ "a service account and metadata server access."

/-- The message of the `RuntimeError` raised by AuthHelper.py lines 65-67. -/
def tokenFetchMsg : String :=
  "Failed to fetch Google ID token. Verify ADC is configured and the audience URL is correct."

/-- AuthHelper.py lines 51-56: the ambient default-credentials path —
`google.auth.default()`, `credentials.refresh(auth_req)`,
`id_token.fetch_id_token(auth_req, audience_url)`, then
`return f"Bearer {token}"`.  Exceptions propagate to the outer handlers. -/
def ambientPath (env : AuthEnv) (audience_url : String) : Except PyExn String :=
  match env.googleAuthDefault with
  | .error e => .error e
  | .ok _ =>
    match env.refreshCreds with
    | .error e => .error e
    | .ok _ =>
      match env.fetch_id_token with
      | .error e => .error e
      | .ok token => .ok ("Bearer " ++ token)

/-- The body of the outer `try` of `get_id_token_for_service`
(AuthHelper.py lines 28-56): if `AGENT_SERVICE_ACCOUNT` is set (Python
truthiness: non-empty), run gcloud with impersonation; on success return
`f"Bearer {result.stdout.strip()}"`; a `subprocess.CalledProcessError` is
caught and falls through to the ambient path; any other exception from the
gcloud call (e.g. `FileNotFoundError` when the binary is missing) escapes
the inner `try` uncaught. -/
def tokenBody (env : AuthEnv) (audience_url : String) : Except PyExn String :=
  match env.agent_service_account with
  | some sa =>
    if sa ≠ "" then
      match env.gcloudRun with
      | .ok stdout => .ok ("Bearer " ++ stdout.trim)
      | .error e =>
        if e = PyExn.calledProcessError then ambientPath env audience_url
        else .error e
    else ambientPath env audience_url
  | none => ambientPath env audience_url

/-- `get_id_token_for_service` (AuthHelper.py lines 11-67): the body wrapped
in the outer handlers — a `DefaultCredentialsError` is re-raised as a
`DefaultCredentialsError` with the remediation message, any other exception
as a `RuntimeError` with the generic message. -/
def get_id_token_for_service (env : AuthEnv) (audience_url : String) : Except PyExn String :=
  match tokenBody env audience_url with
  | .ok s => .ok s
  | .error (.defaultCredentialsError _) => .error (.defaultCredentialsError adcRemediationMsg)
  | .error _ => .error (.runtimeError tokenFetchMsg)

end AuthHelper

namespace MyTools

/-- A readable rendering of an exception, standing for Python's `str(e)` in
the providers' log lines. -/
def exnText : AuthHelper.PyExn → String
  | .defaultCredentialsError m => m
  | .calledProcessError => "CalledProcessError"
  | .fileNotFoundError => "FileNotFoundError"
  | .runtimeError m => m
  | .otherError _ => "Exception"

/-- What one call of a header provider produced: the returned header mapping
and the lines it printed. -/
structure HeaderResult where
  headers : List (String × String)
  logs : List String
deriving DecidableEq, Repr

/-- `get_lumosdb_auth_headers` (LumosChatAgent/MyTools.py lines 19-25):
returns `{"Authorization": get_id_token_for_service(lumosdb_service_url)}`,
and on any exception prints a failure line naming the service URL and
returns `{}`.  The Python `except Exception` catches everything the helper
can raise, so the embedding is total.  `context` is the provider's unused
parameter. -/
def get_lumosdb_auth_headers (env : AuthHelper.AuthEnv) (lumosdb_service_url : String)
    (context : Nat) : HeaderResult :=
  match AuthHelper.get_id_token_for_service env lumosdb_service_url with
  | .ok tok => ⟨[("Authorization", tok)], []⟩
  | .error e =>
    ⟨[], ["Failed to fetch ID token for LumosDB at (" ++ lumosdb_service_url ++ "): "
            ++ exnText e]⟩

/-- `get_lumostrade_auth_headers` (LumosChatAgent/MyTools.py lines 54-60):
identical shape against `lumostrade_service_url`. -/
def get_lumostrade_auth_headers (env : AuthHelper.AuthEnv) (lumostrade_service_url : String)
    (context : Nat) : HeaderResult :=
  match AuthHelper.get_id_token_for_service env lumostrade_service_url with
  | .ok tok => ⟨[("Authorization", tok)], []⟩
  | .error e =>
    ⟨[], ["Failed to fetch ID token for LumosTrade at (" ++ lumostrade_service_url ++ "): "
            ++ exnText e]⟩

end MyTools

section DictLemmas

theorem dictSet_lookup_self (d : Dict) (k : String) (v : PyVal) :
    dictLookup (dictSet d k v) k = some v := by
  simp [dictLookup, dictSet]

theorem dictSet_lookup_ne (d : Dict) (k : String) (v : PyVal) (k' : String) (h : k' ≠ k) :
    dictLookup (dictSet d k v) k' = dictLookup d k' := by
  simp [dictLookup, dictSet, h]

theorem dictDel_lookup_self (d : Dict) (k : String) :
    dictLookup (dictDel d k) k = none := by
  simp [dictLookup, dictDel]

theorem dictDel_lookup_ne (d : Dict) (k : String) (k' : String) (h : k' ≠ k) :
    dictLookup (dictDel d k) k' = dictLookup d k' := by
  simp [dictLookup, dictDel, h]

/-- The two per-request state keys are distinct for every request identity. -/
theorem retryKey_ne_delayKey (rid : Nat) :
    LumosChatAgent.retryKey rid ≠ LumosChatAgent.delayKey rid := by
  intro h
  have hd := congrArg String.data h
  simp only [LumosChatAgent.retryKey, LumosChatAgent.delayKey, String.data_append] at hd
  have hpre : "retry_count_".data = "retry_delay_".data := List.append_cancel_right hd
  exact absurd hpre (by decide)

theorem delayKey_ne_retryKey (rid : Nat) :
    LumosChatAgent.delayKey rid ≠ LumosChatAgent.retryKey rid :=
  fun h => retryKey_ne_delayKey rid h.symm

end DictLemmas

namespace LumosChatAgent

/-- One retry step: both keys present, integer count below the cap, float
delay — the callback increments the count, sleeps the current delay, and
stores the doubled delay capped at the maximum. -/
theorem callback_retry_step (s : Dict) (rid : Nat) (e x : PyVal) (c : Int) (q : ℚ)
    (hc : dictLookup s (retryKey rid) = some (.vint c))
    (hq : dictLookup s (delayKey rid) = some (.vfloat q))
    (hlt : c < RETRY_MAX_ATTEMPTS - 1) :
    retry_on_error_callback s rid e x =
      ⟨.ok .vnone,
       dictSet (dictSet s (retryKey rid) (.vint (c + 1))) (delayKey rid)
         (.vfloat (min (q * RETRY_MULTIPLIER) RETRY_MAX_DELAY)),
       [.vfloat q]⟩ := by
  have hcq : ¬ ((RETRY_MAX_ATTEMPTS - 1 : Int) : ℚ) ≤ (c : ℚ) := by
    rw [not_le]
    exact_mod_cast hlt
  unfold retry_on_error_callback
  simp only [dictLookup] at hc hq
  simp [dictContains, dictLookup, hc, hq, pyGeInt, pyNum, pyAdd1, hcq]
  push_cast at hcq ⊢
  linarith

/-- One exhausted step: both keys present, integer count at or above the cap —
the callback deletes both keys, does not sleep, and returns `None`. -/
theorem callback_exhaust_step (s : Dict) (rid : Nat) (e x : PyVal) (c : Int) (v : PyVal)
    (hc : dictLookup s (retryKey rid) = some (.vint c))
    (hq : dictLookup s (delayKey rid) = some v)
    (hge : RETRY_MAX_ATTEMPTS - 1 ≤ c) :
    retry_on_error_callback s rid e x =
      ⟨.ok .vnone, dictDel (dictDel s (retryKey rid)) (delayKey rid), []⟩ := by
  have hcq : ((RETRY_MAX_ATTEMPTS - 1 : Int) : ℚ) ≤ (c : ℚ) := by exact_mod_cast hge
  unfold retry_on_error_callback
  simp only [dictLookup] at hc hq
  simp [dictContains, dictLookup, hc, hq, pyGeInt, pyNum, hcq]
  intro h
  exfalso
  push_cast at h hcq
  linarith

/-- A fresh step: the retry-count key absent — the callback initializes both
keys, then performs the count-0 retry step: it sleeps the initial delay and
stores the doubled initial delay. -/
theorem callback_fresh_step (s : Dict) (rid : Nat) (e x : PyVal)
    (hc : dictLookup s (retryKey rid) = none) :
    retry_on_error_callback s rid e x =
      ⟨.ok .vnone,
       dictSet (dictSet (dictSet (dictSet s (retryKey rid) (.vint 0)) (delayKey rid)
           (.vfloat RETRY_INITIAL_DELAY)) (retryKey rid) (.vint 1)) (delayKey rid)
         (.vfloat (min (RETRY_INITIAL_DELAY * RETRY_MULTIPLIER) RETRY_MAX_DELAY)),
       [.vfloat RETRY_INITIAL_DELAY]⟩ := by
  unfold retry_on_error_callback
  simp only [dictLookup] at hc
  simp [dictContains, dictLookup, dictSet, hc, pyGeInt, pyNum, pyAdd1,
    retryKey_ne_delayKey rid, delayKey_ne_retryKey rid, RETRY_MAX_ATTEMPTS]

end LumosChatAgent

/-- C8: two runs of `retry_on_error_callback` from the same state and request
that differ only in the `error`/`exception` arguments are identical — same
returned value, same final state, same sleeps.  The error value is bound to
a local (`err = error or exception`) and never used. -/
theorem retry_error_value_irrelevant (s : Dict) (rid : Nat) (e1 x1 e2 x2 : PyVal) :
    LumosChatAgent.retry_on_error_callback s rid e1 x1
      = LumosChatAgent.retry_on_error_callback s rid e2 x2 := rfl

/-- C10: the three textually duplicated copies of `retry_on_error_callback`
(and of `rate_limit_callback`) in LumosChatAgent/agent.py,
LumosChatAgent/GoogleTools.py and LumosConjureAgent/agent.py are
extensionally equal: on every state, request identity and error arguments
they produce the same result, state and sleeps. -/
theorem retry_callbacks_coincide :
    (∀ (s : Dict) (rid : Nat) (e x : PyVal),
      LumosChatAgent.retry_on_error_callback s rid e x
          = GoogleTools.retry_on_error_callback s rid e x
        ∧ LumosChatAgent.retry_on_error_callback s rid e x
          = LumosConjureAgent.retry_on_error_callback s rid e x)
    ∧ (∀ s : Dict,
      LumosChatAgent.rate_limit_callback s = GoogleTools.rate_limit_callback s
        ∧ LumosChatAgent.rate_limit_callback s = LumosConjureAgent.rate_limit_callback s) :=
  ⟨fun _ _ _ _ => ⟨rfl, rfl⟩, fun _ => ⟨rfl, rfl⟩⟩

/-- A canonical fresh-episode state: count 0, delay 0.1, for request id 0. -/
def sampleFreshState : Dict :=
  dictSet (dictSet emptyDict (LumosChatAgent.retryKey 0) (.vint 0))
    (LumosChatAgent.delayKey 0) (.vfloat (1 / 10))

/-- C1: under the default configuration a request that keeps failing gets
exactly two retry signals before exhaustion — the first call sleeps 0.1s, the
second 0.2s, and the third call sleeps nothing, returns, and removes the
per-request state — and every retry step on a stored delay `q` with
`0 ≤ q ≤ RETRY_MAX_DELAY` increments the attempt count, sleeps exactly `q`,
and stores `min (q * RETRY_MULTIPLIER) RETRY_MAX_DELAY`, which is at least
`q` and at most `RETRY_MAX_DELAY` (so the stored delays are non-decreasing
and capped). -/
theorem retry_backoff_schedule (rid : Nat) (e x : PyVal) :
    (let r1 := LumosChatAgent.retry_on_error_callback emptyDict rid e x
     let r2 := LumosChatAgent.retry_on_error_callback r1.state rid e x
     let r3 := LumosChatAgent.retry_on_error_callback r2.state rid e x
     r1.sleeps = [.vfloat (1 / 10)] ∧ r2.sleeps = [.vfloat (1 / 5)] ∧
       r3.sleeps = [] ∧ r3.result = .ok .vnone ∧
       dictLookup r3.state (LumosChatAgent.retryKey rid) = none ∧
       dictLookup r3.state (LumosChatAgent.delayKey rid) = none)
    ∧
    (∀ (s : Dict) (c : Int) (q : ℚ),
      dictLookup s (LumosChatAgent.retryKey rid) = some (.vint c) →
      dictLookup s (LumosChatAgent.delayKey rid) = some (.vfloat q) →
      0 ≤ q → q ≤ LumosChatAgent.RETRY_MAX_DELAY →
      c < LumosChatAgent.RETRY_MAX_ATTEMPTS - 1 →
      dictLookup (LumosChatAgent.retry_on_error_callback s rid e x).state
          (LumosChatAgent.retryKey rid) = some (.vint (c + 1)) ∧
      (LumosChatAgent.retry_on_error_callback s rid e x).sleeps = [.vfloat q] ∧
      dictLookup (LumosChatAgent.retry_on_error_callback s rid e x).state
          (LumosChatAgent.delayKey rid)
        = some (.vfloat (min (q * LumosChatAgent.RETRY_MULTIPLIER)
            LumosChatAgent.RETRY_MAX_DELAY)) ∧
      q ≤ min (q * LumosChatAgent.RETRY_MULTIPLIER) LumosChatAgent.RETRY_MAX_DELAY ∧
      min (q * LumosChatAgent.RETRY_MULTIPLIER) LumosChatAgent.RETRY_MAX_DELAY
        ≤ LumosChatAgent.RETRY_MAX_DELAY) := by
  have hne := retryKey_ne_delayKey rid
  have hne' := delayKey_ne_retryKey rid
  constructor
  · rw [LumosChatAgent.callback_fresh_step emptyDict rid e x rfl]
    have hmin1 : min (LumosChatAgent.RETRY_INITIAL_DELAY * LumosChatAgent.RETRY_MULTIPLIER)
        LumosChatAgent.RETRY_MAX_DELAY = 1 / 5 := by
      norm_num [LumosChatAgent.RETRY_INITIAL_DELAY, LumosChatAgent.RETRY_MULTIPLIER,
        LumosChatAgent.RETRY_MAX_DELAY]
    dsimp only
    rw [LumosChatAgent.callback_retry_step _ rid e x 1 (1 / 5)
      (by rw [dictSet_lookup_ne _ _ _ _ hne]; exact dictSet_lookup_self _ _ _)
      (by rw [dictSet_lookup_self, hmin1])
      (by norm_num [LumosChatAgent.RETRY_MAX_ATTEMPTS])]
    dsimp only
    rw [LumosChatAgent.callback_exhaust_step _ rid e x 2 (.vfloat
        (min ((1 / 5) * LumosChatAgent.RETRY_MULTIPLIER) LumosChatAgent.RETRY_MAX_DELAY))
      (by rw [dictSet_lookup_ne _ _ _ _ hne]; exact dictSet_lookup_self _ _ _)
      (dictSet_lookup_self _ _ _)
      (by norm_num [LumosChatAgent.RETRY_MAX_ATTEMPTS])]
    refine ⟨rfl, rfl, rfl, rfl, ?_, ?_⟩
    · rw [dictDel_lookup_ne _ _ _ hne]
      exact dictDel_lookup_self _ _
    · exact dictDel_lookup_self _ _
  · intro s c q hc hq h0 hM hlt
    rw [LumosChatAgent.callback_retry_step s rid e x c q hc hq hlt]
    refine ⟨?_, rfl, dictSet_lookup_self _ _ _, ?_, min_le_right _ _⟩
    · rw [dictSet_lookup_ne _ _ _ _ hne]
      exact dictSet_lookup_self _ _ _
    · refine le_min ?_ hM
      simp only [LumosChatAgent.RETRY_MULTIPLIER]
      linarith

/-- Witness for `retry_backoff_schedule`: its retry-step clause evaluated on
the canonical fresh-episode state for request id 0. -/
theorem retry_backoff_schedule_witness :
    dictLookup (LumosChatAgent.retry_on_error_callback sampleFreshState 0 .vnone .vnone).state
        (LumosChatAgent.retryKey 0) = some (.vint 1) ∧
    (LumosChatAgent.retry_on_error_callback sampleFreshState 0 .vnone .vnone).sleeps
        = [.vfloat (1 / 10)] ∧
    dictLookup (LumosChatAgent.retry_on_error_callback sampleFreshState 0 .vnone .vnone).state
        (LumosChatAgent.delayKey 0)
      = some (.vfloat (min ((1 / 10) * LumosChatAgent.RETRY_MULTIPLIER)
          LumosChatAgent.RETRY_MAX_DELAY)) ∧
    (1 / 10 : ℚ) ≤ min ((1 / 10) * LumosChatAgent.RETRY_MULTIPLIER)
        LumosChatAgent.RETRY_MAX_DELAY ∧
    min ((1 / 10 : ℚ) * LumosChatAgent.RETRY_MULTIPLIER) LumosChatAgent.RETRY_MAX_DELAY
        ≤ LumosChatAgent.RETRY_MAX_DELAY :=
  (retry_backoff_schedule 0 .vnone .vnone).2 sampleFreshState 0 (1 / 10)
    (by unfold sampleFreshState
        rw [dictSet_lookup_ne _ _ _ _ (retryKey_ne_delayKey 0)]
        exact dictSet_lookup_self _ _ _)
    (by unfold sampleFreshState; exact dictSet_lookup_self _ _ _)
    (by norm_num)
    (by norm_num [LumosChatAgent.RETRY_MAX_DELAY])
    (by decide)

/-- C4: when the stored attempt count has reached `RETRY_MAX_ATTEMPTS - 1`,
the callback removes both per-request keys, sleeps nothing, and returns
`None` (letting the error propagate); a subsequent call with the same
derived key restarts from attempt 0: it re-initializes the state, sleeps the
initial delay, and leaves attempt count 1 and delay
`min (initial * multiplier) max` stored. -/
theorem retry_exhaustion_clears_state (s : Dict) (rid : Nat) (e x : PyVal) (c : Int) (v : PyVal)
    (hc : dictLookup s (LumosChatAgent.retryKey rid) = some (.vint c))
    (hv : dictLookup s (LumosChatAgent.delayKey rid) = some v)
    (hge : LumosChatAgent.RETRY_MAX_ATTEMPTS - 1 ≤ c) :
    dictLookup (LumosChatAgent.retry_on_error_callback s rid e x).state
        (LumosChatAgent.retryKey rid) = none ∧
    dictLookup (LumosChatAgent.retry_on_error_callback s rid e x).state
        (LumosChatAgent.delayKey rid) = none ∧
    (LumosChatAgent.retry_on_error_callback s rid e x).result = .ok .vnone ∧
    (LumosChatAgent.retry_on_error_callback s rid e x).sleeps = [] ∧
    (LumosChatAgent.retry_on_error_callback
        (LumosChatAgent.retry_on_error_callback s rid e x).state rid e x).sleeps
      = [.vfloat LumosChatAgent.RETRY_INITIAL_DELAY] ∧
    dictLookup (LumosChatAgent.retry_on_error_callback
        (LumosChatAgent.retry_on_error_callback s rid e x).state rid e x).state
        (LumosChatAgent.retryKey rid) = some (.vint 1) ∧
    dictLookup (LumosChatAgent.retry_on_error_callback
        (LumosChatAgent.retry_on_error_callback s rid e x).state rid e x).state
        (LumosChatAgent.delayKey rid)
      = some (.vfloat (min (LumosChatAgent.RETRY_INITIAL_DELAY * LumosChatAgent.RETRY_MULTIPLIER)
          LumosChatAgent.RETRY_MAX_DELAY)) := by
  have hne := retryKey_ne_delayKey rid
  have hne' := delayKey_ne_retryKey rid
  rw [LumosChatAgent.callback_exhaust_step s rid e x c v hc hv hge]
  have hgone : dictLookup (dictDel (dictDel s (LumosChatAgent.retryKey rid))
      (LumosChatAgent.delayKey rid)) (LumosChatAgent.retryKey rid) = none := by
    rw [dictDel_lookup_ne _ _ _ hne]
    exact dictDel_lookup_self _ _
  rw [LumosChatAgent.callback_fresh_step _ rid e x hgone]
  refine ⟨hgone, dictDel_lookup_self _ _, rfl, rfl, rfl, ?_, dictSet_lookup_self _ _ _⟩
  rw [dictSet_lookup_ne _ _ _ _ hne]
  exact dictSet_lookup_self _ _ _

/-- A state whose retry budget for request id 0 is exhausted: count 2,
delay 0.1. -/
def sampleExhaustedState : Dict :=
  dictSet (dictSet emptyDict (LumosChatAgent.retryKey 0) (.vint 2))
    (LumosChatAgent.delayKey 0) (.vfloat (1 / 10))

/-- Witness for `retry_exhaustion_clears_state`: evaluated on the exhausted
state for request id 0 (count 2 = `RETRY_MAX_ATTEMPTS - 1`). -/
theorem retry_exhaustion_clears_state_witness :
    dictLookup (LumosChatAgent.retry_on_error_callback sampleExhaustedState 0 .vnone .vnone).state
        (LumosChatAgent.retryKey 0) = none ∧
    dictLookup (LumosChatAgent.retry_on_error_callback sampleExhaustedState 0 .vnone .vnone).state
        (LumosChatAgent.delayKey 0) = none ∧
    (LumosChatAgent.retry_on_error_callback sampleExhaustedState 0 .vnone .vnone).result
      = .ok .vnone ∧
    (LumosChatAgent.retry_on_error_callback sampleExhaustedState 0 .vnone .vnone).sleeps = [] ∧
    (LumosChatAgent.retry_on_error_callback
        (LumosChatAgent.retry_on_error_callback sampleExhaustedState 0 .vnone .vnone).state
        0 .vnone .vnone).sleeps = [.vfloat LumosChatAgent.RETRY_INITIAL_DELAY] ∧
    dictLookup (LumosChatAgent.retry_on_error_callback
        (LumosChatAgent.retry_on_error_callback sampleExhaustedState 0 .vnone .vnone).state
        0 .vnone .vnone).state (LumosChatAgent.retryKey 0) = some (.vint 1) ∧
    dictLookup (LumosChatAgent.retry_on_error_callback
        (LumosChatAgent.retry_on_error_callback sampleExhaustedState 0 .vnone .vnone).state
        0 .vnone .vnone).state (LumosChatAgent.delayKey 0)
      = some (.vfloat (min (LumosChatAgent.RETRY_INITIAL_DELAY * LumosChatAgent.RETRY_MULTIPLIER)
          LumosChatAgent.RETRY_MAX_DELAY)) :=
  retry_exhaustion_clears_state sampleExhaustedState 0 .vnone .vnone 2 (.vfloat (1 / 10))
    (by unfold sampleExhaustedState
        rw [dictSet_lookup_ne _ _ _ _ (retryKey_ne_delayKey 0)]
        exact dictSet_lookup_self _ _ _)
    (by unfold sampleExhaustedState; exact dictSet_lookup_self _ _ _)
    (by norm_num [LumosChatAgent.RETRY_MAX_ATTEMPTS])

/-- C2 (evaluation of the code at a fresh request): on a fresh request the
callback takes the retry branch — it sleeps and stores per-request state —
and on an exhausted request it takes the propagate branch — no sleep, state
removed — yet both branches return the very same value, Python `None`
(agent.py lines 50 and 63): the returned value does not distinguish
"retry" from "propagate". -/
theorem retry_return_value_indistinct :
    (LumosChatAgent.retry_on_error_callback emptyDict 0 .vnone .vnone).sleeps ≠ [] ∧
    dictLookup (LumosChatAgent.retry_on_error_callback emptyDict 0 .vnone .vnone).state
        (LumosChatAgent.retryKey 0) = some (.vint 1) ∧
    (LumosChatAgent.retry_on_error_callback sampleExhaustedState 0 .vnone .vnone).sleeps = [] ∧
    dictLookup (LumosChatAgent.retry_on_error_callback sampleExhaustedState 0 .vnone .vnone).state
        (LumosChatAgent.retryKey 0) = none ∧
    (LumosChatAgent.retry_on_error_callback emptyDict 0 .vnone .vnone).result = .ok .vnone ∧
    (LumosChatAgent.retry_on_error_callback sampleExhaustedState 0 .vnone .vnone).result
      = .ok .vnone ∧
    (LumosChatAgent.retry_on_error_callback emptyDict 0 .vnone .vnone).result
      = (LumosChatAgent.retry_on_error_callback sampleExhaustedState 0 .vnone .vnone).result := by
  have hne := retryKey_ne_delayKey 0
  have hne' := delayKey_ne_retryKey 0
  rw [LumosChatAgent.callback_fresh_step emptyDict 0 .vnone .vnone rfl,
    LumosChatAgent.callback_exhaust_step sampleExhaustedState 0 .vnone .vnone 2 (.vfloat (1 / 10))
      (by unfold sampleExhaustedState
          rw [dictSet_lookup_ne _ _ _ _ hne]
          exact dictSet_lookup_self _ _ _)
      (by unfold sampleExhaustedState; exact dictSet_lookup_self _ _ _)
      (by norm_num [LumosChatAgent.RETRY_MAX_ATTEMPTS])]
  refine ⟨by simp, ?_, rfl, ?_, rfl, rfl, rfl⟩
  · rw [dictSet_lookup_ne _ _ _ _ hne]
    exact dictSet_lookup_self _ _ _
  · rw [dictDel_lookup_ne _ _ _ hne]
    exact dictDel_lookup_self _ _

/-- A state holding the retry-count key for request id 0 but not the delay
key. -/
def lopsidedState : Dict := dictSet emptyDict (LumosChatAgent.retryKey 0) (.vint 0)

/-- C9 fails as stated: on a state holding the retry-count key but not the
delay key, the callback raises `KeyError` reading the delay, leaving the
count key present and the delay key absent — after the call the two derived
keys are neither both present nor both absent. -/
theorem retry_state_pairing_cex :
    (LumosChatAgent.retry_on_error_callback lopsidedState 0 .vnone .vnone).result
      = .error (.keyError (LumosChatAgent.delayKey 0)) ∧
    (dictLookup (LumosChatAgent.retry_on_error_callback lopsidedState 0 .vnone .vnone).state
        (LumosChatAgent.retryKey 0)).isSome = true ∧
    dictLookup (LumosChatAgent.retry_on_error_callback lopsidedState 0 .vnone .vnone).state
        (LumosChatAgent.delayKey 0) = none ∧
    ¬ ((dictLookup (LumosChatAgent.retry_on_error_callback lopsidedState 0 .vnone .vnone).state
          (LumosChatAgent.retryKey 0)).isSome ↔
        (dictLookup (LumosChatAgent.retry_on_error_callback lopsidedState 0 .vnone .vnone).state
          (LumosChatAgent.delayKey 0)).isSome) := by
  have hne := retryKey_ne_delayKey 0
  have hne' := delayKey_ne_retryKey 0
  simp [LumosChatAgent.retry_on_error_callback, lopsidedState, dictLookup, dictContains,
    dictSet, emptyDict, hne, hne']

/-- C9 (amended): one call of the callback changes at most the two state
entries derived from the request identity — every other key reads the same
before and after, on every path including the error paths — and whenever the
two derived keys start out both present or both absent, they end up both
present or both absent. -/
theorem retry_state_frame (s : Dict) (rid : Nat) (e x : PyVal) :
    (∀ k : String, k ≠ LumosChatAgent.retryKey rid → k ≠ LumosChatAgent.delayKey rid →
      dictLookup (LumosChatAgent.retry_on_error_callback s rid e x).state k = dictLookup s k) ∧
    (((dictLookup s (LumosChatAgent.retryKey rid)).isSome ↔
        (dictLookup s (LumosChatAgent.delayKey rid)).isSome) →
      ((dictLookup (LumosChatAgent.retry_on_error_callback s rid e x).state
          (LumosChatAgent.retryKey rid)).isSome ↔
        (dictLookup (LumosChatAgent.retry_on_error_callback s rid e x).state
          (LumosChatAgent.delayKey rid)).isSome)) := by
  have hne := retryKey_ne_delayKey rid
  have hne' := delayKey_ne_retryKey rid
  constructor
  · intro k hk1 hk2
    simp only [LumosChatAgent.retry_on_error_callback]
    repeat' split
    all_goals simp_all [dictLookup, dictContains, dictSet, dictDel, hk1, hk2]
  · intro hpair
    simp only [LumosChatAgent.retry_on_error_callback]
    repeat' split
    all_goals simp_all [dictLookup, dictContains, dictSet, dictDel, hne, hne']

/-- Witness for `retry_state_frame`: on the canonical fresh-episode state for
request id 0, an unrelated key is untouched and the two derived keys stay
paired. -/
theorem retry_state_frame_witness :
    dictLookup (LumosChatAgent.retry_on_error_callback sampleFreshState 0 .vnone .vnone).state
        "unrelated" = dictLookup sampleFreshState "unrelated" ∧
    ((dictLookup (LumosChatAgent.retry_on_error_callback sampleFreshState 0 .vnone .vnone).state
        (LumosChatAgent.retryKey 0)).isSome ↔
      (dictLookup (LumosChatAgent.retry_on_error_callback sampleFreshState 0 .vnone .vnone).state
        (LumosChatAgent.delayKey 0)).isSome) :=
  ⟨(retry_state_frame sampleFreshState 0 .vnone .vnone).1 "unrelated" (by decide) (by decide),
   (retry_state_frame sampleFreshState 0 .vnone .vnone).2
     (by simp [sampleFreshState, dictLookup, dictSet, retryKey_ne_delayKey 0,
       delayKey_ne_retryKey 0])⟩

/-- An environment with impersonation configured whose gcloud binary is
missing while ambient credentials would succeed. -/
def gcloudMissingEnv : AuthHelper.AuthEnv :=
  { agent_service_account := some "agent@proj.iam.gserviceaccount.com"
    gcloudRun := .error .fileNotFoundError
    googleAuthDefault := .ok ()
    refreshCreds := .ok ()
    fetch_id_token := .ok "tok" }

/-- C3 fails as stated: with an impersonation identity configured and the
identity CLI binary missing (`FileNotFoundError` from `subprocess.run`), the
helper does not fall through to the working ambient path — it raises the
generic `RuntimeError` instead of returning the ambient token. -/
theorem impersonation_missing_binary_cex :
    AuthHelper.get_id_token_for_service gcloudMissingEnv "https://svc-a"
        = .error (.runtimeError AuthHelper.tokenFetchMsg) ∧
    AuthHelper.get_id_token_for_service
        { gcloudMissingEnv with agent_service_account := none } "https://svc-a"
      = .ok ("Bearer " ++ "tok") ∧
    AuthHelper.get_id_token_for_service gcloudMissingEnv "https://svc-a"
      ≠ AuthHelper.get_id_token_for_service
          { gcloudMissingEnv with agent_service_account := none } "https://svc-a" := by
  refine ⟨rfl, rfl, ?_⟩
  intro h
  exact absurd h (by simp [AuthHelper.get_id_token_for_service, AuthHelper.tokenBody,
    AuthHelper.ambientPath, gcloudMissingEnv])

/-- C3 (amended): with an impersonation identity configured, a non-zero exit
of the identity CLI (`CalledProcessError`) silently falls through to the
ambient default-credentials path — the call behaves exactly as if no
impersonation identity were configured — but a missing CLI binary
(`FileNotFoundError`) does not fall through: it escapes the inner handler
and surfaces as the generic token-fetch `RuntimeError`. -/
theorem impersonation_fallback_policy (env : AuthHelper.AuthEnv) (aud sa : String)
    (hsa : env.agent_service_account = some sa) (hne : sa ≠ "") :
    (env.gcloudRun = .error .calledProcessError →
      AuthHelper.get_id_token_for_service env aud
        = AuthHelper.get_id_token_for_service { env with agent_service_account := none } aud) ∧
    (env.gcloudRun = .error .fileNotFoundError →
      AuthHelper.get_id_token_for_service env aud
        = .error (.runtimeError AuthHelper.tokenFetchMsg)) := by
  constructor
  · intro hg
    simp [AuthHelper.get_id_token_for_service, AuthHelper.tokenBody, AuthHelper.ambientPath,
      hsa, hne, hg]
  · intro hg
    simp [AuthHelper.get_id_token_for_service, AuthHelper.tokenBody, hsa, hne, hg]

/-- `gcloudMissingEnv` with the gcloud failure being a non-zero exit
instead of a missing binary. -/
def gcloudNonzeroExitEnv : AuthHelper.AuthEnv :=
  { gcloudMissingEnv with gcloudRun := .error .calledProcessError }

/-- Witness for `impersonation_fallback_policy`: an environment whose gcloud
invocation exits non-zero while the ambient path succeeds falls through to
the ambient token, and one whose gcloud binary is missing raises the
generic error. -/
theorem impersonation_fallback_policy_witness :
    AuthHelper.get_id_token_for_service gcloudNonzeroExitEnv "https://svc-a"
      = AuthHelper.get_id_token_for_service
          { gcloudNonzeroExitEnv with agent_service_account := none } "https://svc-a" ∧
    AuthHelper.get_id_token_for_service gcloudMissingEnv "https://svc-a"
      = .error (.runtimeError AuthHelper.tokenFetchMsg) :=
  ⟨(impersonation_fallback_policy gcloudNonzeroExitEnv "https://svc-a"
      "agent@proj.iam.gserviceaccount.com" rfl (by decide)).1 rfl,
   (impersonation_fallback_policy gcloudMissingEnv "https://svc-a"
      "agent@proj.iam.gserviceaccount.com" rfl (by decide)).2 rfl⟩

/-- C7: whenever `get_id_token_for_service` returns successfully — via the
impersonation path or via the ambient default-credentials path — the value
is the literal prefix `"Bearer "` followed by the raw token. -/
theorem token_bearer_format (env : AuthHelper.AuthEnv) (aud s : String)
    (h : AuthHelper.get_id_token_for_service env aud = .ok s) :
    ∃ t, s = "Bearer " ++ t := by
  cases htb : AuthHelper.tokenBody env aud with
  | ok r =>
    have hr : r = s := by
      unfold AuthHelper.get_id_token_for_service at h
      rw [htb] at h
      simpa using h
    subst hr
    unfold AuthHelper.tokenBody AuthHelper.ambientPath at htb
    repeat' split at htb
    all_goals simp_all
    all_goals exact ⟨_, htb.symm⟩
  | error e =>
    exfalso
    unfold AuthHelper.get_id_token_for_service at h
    rw [htb] at h
    cases e <;> simp_all

/-- Witness for `token_bearer_format`: the ambient path of a concrete
environment mints `"Bearer tok"`. -/
theorem token_bearer_format_witness : ∃ t, "Bearer tok" = "Bearer " ++ t :=
  token_bearer_format { gcloudMissingEnv with agent_service_account := none }
    "https://svc-a" "Bearer tok" (by decide)

/-- An environment with no impersonation identity and no discoverable
ambient credentials. -/
def ambientFailEnv : AuthHelper.AuthEnv :=
  { agent_service_account := none
    gcloudRun := .ok ""
    googleAuthDefault := .error (.defaultCredentialsError "no adc")
    refreshCreds := .ok ()
    fetch_id_token := .ok "tok" }

/-- C5: with no impersonation identity configured, undiscoverable ambient
default credentials (`google.auth.default` raising
`DefaultCredentialsError`) surface as a `DefaultCredentialsError` — the same
credentials-unavailable class — whose message mentions both the local
configuration path (`GOOGLE_APPLICATION_CREDENTIALS` / local `gcloud`
login, "If running locally") and the hosted path ("If running in Cloud
Run"); every other failure of the ambient path (refresh, token fetch,
provider error) surfaces as the distinct generic `RuntimeError`. -/
theorem credentials_error_taxonomy (env : AuthHelper.AuthEnv) (aud : String)
    (hsa : env.agent_service_account = none) :
    (∀ m, env.googleAuthDefault = .error (.defaultCredentialsError m) →
      AuthHelper.get_id_token_for_service env aud
        = .error (.defaultCredentialsError AuthHelper.adcRemediationMsg)) ∧
    ("If running locally".data <:+: AuthHelper.adcRemediationMsg.data) ∧
    ("GOOGLE_APPLICATION_CREDENTIALS".data <:+: AuthHelper.adcRemediationMsg.data) ∧
    ("If running in Cloud Run".data <:+: AuthHelper.adcRemediationMsg.data) ∧
    (∀ tag, env.googleAuthDefault = .error (.otherError tag) →
      AuthHelper.get_id_token_for_service env aud
        = .error (.runtimeError AuthHelper.tokenFetchMsg)) ∧
    (∀ tag, env.googleAuthDefault = .ok () → env.refreshCreds = .error (.otherError tag) →
      AuthHelper.get_id_token_for_service env aud
        = .error (.runtimeError AuthHelper.tokenFetchMsg)) ∧
    (∀ tag, env.googleAuthDefault = .ok () → env.refreshCreds = .ok () →
      env.fetch_id_token = .error (.otherError tag) →
      AuthHelper.get_id_token_for_service env aud
        = .error (.runtimeError AuthHelper.tokenFetchMsg)) ∧
    (∀ m m', AuthHelper.PyExn.defaultCredentialsError m ≠ .runtimeError m') := by
  refine ⟨?_, by set_option maxRecDepth 100000 in decide,
    by set_option maxRecDepth 100000 in decide,
    by set_option maxRecDepth 100000 in decide, ?_, ?_, ?_, ?_⟩
  · intro m hd
    simp [AuthHelper.get_id_token_for_service, AuthHelper.tokenBody, AuthHelper.ambientPath,
      hsa, hd]
  · intro tag hd
    simp [AuthHelper.get_id_token_for_service, AuthHelper.tokenBody, AuthHelper.ambientPath,
      hsa, hd]
  · intro tag h1 h2
    simp [AuthHelper.get_id_token_for_service, AuthHelper.tokenBody, AuthHelper.ambientPath,
      hsa, h1, h2]
  · intro tag h1 h2 h3
    simp [AuthHelper.get_id_token_for_service, AuthHelper.tokenBody, AuthHelper.ambientPath,
      hsa, h1, h2, h3]
  · intro m m' hne
    cases hne

/-- Witness for `credentials_error_taxonomy`: on a concrete environment with
no impersonation identity and no ambient credentials, the result is the
remediation-carrying `DefaultCredentialsError`. -/
theorem credentials_error_taxonomy_witness :
    AuthHelper.get_id_token_for_service ambientFailEnv "https://svc-a"
      = .error (.defaultCredentialsError AuthHelper.adcRemediationMsg) :=
  (credentials_error_taxonomy ambientFailEnv "https://svc-a" rfl).1 "no adc" rfl

/-- C6: neither header provider can raise (the embedding is total because
the source wraps the mint in `except Exception`), and each returns either
exactly one `Authorization` entry holding the minted bearer string and logs
nothing, or — when minting fails — the empty mapping together with a log
line naming its service URL. -/
theorem header_providers_never_raise (env : AuthHelper.AuthEnv) (url : String) (ctx : Nat) :
    ((∃ tok, AuthHelper.get_id_token_for_service env url = .ok tok ∧
        MyTools.get_lumosdb_auth_headers env url ctx
          = ⟨[("Authorization", tok)], []⟩) ∨
      (∃ e, AuthHelper.get_id_token_for_service env url = .error e ∧
        MyTools.get_lumosdb_auth_headers env url ctx
          = ⟨[], ["Failed to fetch ID token for LumosDB at (" ++ url ++ "): "
              ++ MyTools.exnText e]⟩)) ∧
    ((∃ tok, AuthHelper.get_id_token_for_service env url = .ok tok ∧
        MyTools.get_lumostrade_auth_headers env url ctx
          = ⟨[("Authorization", tok)], []⟩) ∨
      (∃ e, AuthHelper.get_id_token_for_service env url = .error e ∧
        MyTools.get_lumostrade_auth_headers env url ctx
          = ⟨[], ["Failed to fetch ID token for LumosTrade at (" ++ url ++ "): "
              ++ MyTools.exnText e]⟩)) := by
  constructor
  · cases h : AuthHelper.get_id_token_for_service env url with
    | ok tok => exact Or.inl ⟨tok, rfl, by simp [MyTools.get_lumosdb_auth_headers, h]⟩
    | error e => exact Or.inr ⟨e, rfl, by simp [MyTools.get_lumosdb_auth_headers, h]⟩
  · cases h : AuthHelper.get_id_token_for_service env url with
    | ok tok => exact Or.inl ⟨tok, rfl, by simp [MyTools.get_lumostrade_auth_headers, h]⟩
    | error e => exact Or.inr ⟨e, rfl, by simp [MyTools.get_lumostrade_auth_headers, h]⟩
